import Mathlib

/-!
Verification of `generate_report.py` (property-dashboard).

Shallow embedding of the report-generation pipeline. Python / pandas
floating-point numbers are modelled as exact rationals (ℚ); Python's
built-in `round` (which rounds half to even on the exact value,
"banker's rounding") is modelled by `rnd1` below. A pandas `DataFrame`
is modelled as a list of rows together with an optional `occupancy_pct`
column (the column is present or absent table-wide, exactly as in
pandas, and runs parallel to the rows). In-place mutation of the
dataframe (`df['occupancy_pct'] = ...`) is modelled by explicit state
passing: `prepare_chart_data` returns the mutated table alongside its
chart payloads and `runPipeline` threads that table into
`prepare_table_data`, mirroring the statement order of
`generate_report`. The filesystem read in `load_data` is modelled by a
function from paths to optionally-parsed tables.
-/

/-- One dataframe row with the canonical (renamed) columns. Field order
matches the sample-data dict in `load_data`. Counts are Python ints. -/
structure Row where
  unit_type : String
  total_units : Int
  preleased : Int
  available : Int
  new_leases : Int
  renewals : Int
deriving DecidableEq, Repr

/-- A dataframe: rows plus the optional `occupancy_pct` column (listed
parallel to `rows` when present, as a pandas column is). -/
structure Table where
  rows : List Row
  occupancy_pct : Option (List ℚ)
deriving DecidableEq, Repr

/-- Well-formedness of the pandas model: when the `occupancy_pct` column
is present it has exactly one value per row. Every real dataframe
satisfies this; `loadCsv` and `prepare_chart_data` preserve it. -/
def Table.wfB (t : Table) : Bool :=
  match t.occupancy_pct with
  | none => true
  | some vs => vs.length == t.rows.length

/-- Python's `round(q * 10)` step: nearest integer, ties to the even
integer (CPython's `round` applied to the exact value of its float
argument; all concrete inputs in the claims are exactly representable
binary fractions, so the exact-rational model agrees with the floats). -/
def roundHalfEven (q : ℚ) : Int :=
  let f := ⌊q⌋
  if q - f < 1/2 then f
  else if q - f > 1/2 then f + 1
  else if f % 2 = 0 then f else f + 1

/-- Python's `round(q, 1)` as used throughout the source: one decimal
place, ties to even. -/
def rnd1 (q : ℚ) : ℚ :=
  (roundHalfEven (q * 10) : ℚ) / 10

/-- The source's `df['occupancy_pct'].max() <= 1` test. pandas `max` of
an empty column is NaN and `NaN <= 1` is false, hence the empty case. -/
def seriesMaxLe1 (vs : List ℚ) : Bool :=
  match vs with
  | [] => false
  | v :: rest => decide (rest.foldl max v ≤ 1)

/-- The occupancy-resolution block that appears verbatim at the top of
both `prepare_chart_data` and `prepare_table_data`: if the column is
absent, derive `round(preleased / total_units * 100, 1)` per row; if it
is present and its table-wide maximum is at most 1, rescale every value
by 100 and round to one decimal; otherwise leave the values untouched
(the source's else-branch performs no operation at all). -/
def resolveOcc (t : Table) : List ℚ :=
  match t.occupancy_pct with
  | none => t.rows.map (fun r => rnd1 ((r.preleased : ℚ) / (r.total_units : ℚ) * 100))
  | some vs => if seriesMaxLe1 vs then vs.map (fun v => rnd1 (v * 100)) else vs

/-- Summary metrics returned by `calculate_metrics`. -/
structure Metrics where
  total_units : Int
  total_preleased : Int
  total_available : Int
  overall_occupancy : ℚ
deriving DecidableEq, Repr

/-- Embedding of `calculate_metrics`: exact integer column sums, and
`round(total_preleased / total_units * 100, 1) if total_units > 0 else 0`. -/
def calculate_metrics (t : Table) : Metrics :=
  let total_units := (t.rows.map Row.total_units).sum
  let total_preleased := (t.rows.map Row.preleased).sum
  let total_available := (t.rows.map Row.available).sum
  let overall_occupancy : ℚ :=
    if total_units > 0 then rnd1 ((total_preleased : ℚ) / (total_units : ℚ) * 100) else 0
  ⟨total_units, total_preleased, total_available, overall_occupancy⟩

/-- Modelled from the spec: one insertion step of a stable ascending
sort on the `occupancy_pct` key. The sorting algorithm itself lives in
pandas (`DataFrame.sort_values`), not in this repository; the spec fixes
its contract to "rows sorted ascending by `occupancy_pct`, ties broken
by stable original order", which a stable insertion sort realises. -/
def insertAsc (x : Row × ℚ) : List (Row × ℚ) → List (Row × ℚ)
  | [] => [x]
  | y :: ys => if x.2 ≤ y.2 then x :: y :: ys else y :: insertAsc x ys

/-- Modelled from the spec: `df.sort_values('occupancy_pct', ascending=True)`
on (row, occupancy) pairs — a stable ascending insertion sort. -/
def sortPairs : List (Row × ℚ) → List (Row × ℚ)
  | [] => []
  | x :: xs => insertAsc x (sortPairs xs)

/-- The `occupancy_chart` payload: parallel label/value arrays. -/
structure OccupancyChart where
  labels : List String
  values : List ℚ
deriving DecidableEq, Repr

/-- The `donut_chart` payload: fixed labels and three aggregate values. -/
structure DonutChart where
  labels : List String
  values : List Int
deriving DecidableEq, Repr

/-- The `stacked_chart` payload: labels plus two parallel value arrays. -/
structure StackedChart where
  labels : List String
  new_leases : List Int
  renewals : List Int
deriving DecidableEq, Repr

/-- The `availability_chart` payload: labels plus two parallel arrays. -/
structure AvailabilityChart where
  labels : List String
  preleased : List Int
  available : List Int
deriving DecidableEq, Repr

/-- The dict returned by `prepare_chart_data`. -/
structure ChartData where
  occupancy_chart : OccupancyChart
  donut_chart : DonutChart
  stacked_chart : StackedChart
  availability_chart : AvailabilityChart
deriving DecidableEq, Repr

/-- Embedding of `prepare_chart_data`. The in-place column assignment
`df['occupancy_pct'] = ...` is returned as the second component: the
mutated dataframe that the caller's later statements observe. The
sorted copy `df_sorted` is local; the donut, stacked and availability
payloads read the dataframe in original row order. -/
def prepare_chart_data (t : Table) : ChartData × Table :=
  let occs := resolveOcc t
  let t2 : Table := ⟨t.rows, some occs⟩
  let sorted := sortPairs (t2.rows.zip occs)
  let occupancy_chart : OccupancyChart :=
    ⟨sorted.map (fun p => p.1.unit_type), sorted.map (fun p => p.2)⟩
  let donut_chart : DonutChart :=
    ⟨["New Leases", "Renewals", "Available"],
     [(t2.rows.map Row.new_leases).sum, (t2.rows.map Row.renewals).sum,
      (t2.rows.map Row.available).sum]⟩
  let stacked_chart : StackedChart :=
    ⟨t2.rows.map Row.unit_type, t2.rows.map Row.new_leases, t2.rows.map Row.renewals⟩
  let availability_chart : AvailabilityChart :=
    ⟨t2.rows.map Row.unit_type, t2.rows.map Row.preleased, t2.rows.map Row.available⟩
  (⟨occupancy_chart, donut_chart, stacked_chart, availability_chart⟩, t2)

/-- One record of the display table built by `prepare_table_data`. -/
structure TableRow where
  unit_type : String
  total_units : Int
  preleased : Int
  available : Int
  new_leases : Int
  renewals : Int
  occupancy : ℚ
  occupancy_class : String
deriving DecidableEq, Repr

/-- The conditional-formatting bucket of `prepare_table_data`:
`low if occ < 70 else mid if occ < 90 else high`. -/
def occClass (occ : ℚ) : String :=
  if occ < 70 then "occupancy-low"
  else if occ < 90 then "occupancy-mid"
  else "occupancy-high"

/-- Embedding of `prepare_table_data`: resolve the occupancy column the
same way `prepare_chart_data` does, then emit one display record per
row in original order with the computed class tag. -/
def prepare_table_data (t : Table) : List TableRow :=
  let occs := resolveOcc t
  (t.rows.zip occs).map (fun p =>
    ⟨p.1.unit_type, p.1.total_units, p.1.preleased, p.1.available,
     p.1.new_leases, p.1.renewals, p.2, occClass p.2⟩)

/-- The fixed built-in sample dataframe of `load_data` (six literal
rows, no `occupancy_pct` column). -/
def sampleTable : Table :=
  ⟨[⟨"Studio", 80, 72, 8, 45, 27⟩,
    ⟨"1BR", 150, 120, 30, 70, 50⟩,
    ⟨"1BR+Den", 100, 82, 18, 50, 32⟩,
    ⟨"2BR", 140, 112, 28, 65, 47⟩,
    ⟨"2BR+Den", 80, 60, 20, 35, 25⟩,
    ⟨"3BR", 50, 44, 6, 25, 19⟩], none⟩

/-- The CSV branch of `load_data`, applied to the parsed and
column-renamed table: keep exactly the rows with `total_units > 0`
(the `occupancy_pct` column, when present, is filtered with its rows,
as pandas row filtering does). -/
def loadCsv (raw : Table) : Table :=
  match raw.occupancy_pct with
  | none => ⟨raw.rows.filter (fun r => decide (0 < r.total_units)), none⟩
  | some vs =>
      let kept := (raw.rows.zip vs).filter (fun p => decide (0 < p.1.total_units))
      ⟨kept.map Prod.fst, some (kept.map Prod.snd)⟩

/-- Embedding of `load_data`. The filesystem and the CSV parser plus
column rename are abstracted into `fs`: `fs p = some raw` means the file
at `p` exists and parses to the renamed table `raw`; `fs p = none`
means `os.path.exists` fails. A `none` path models a falsy `csv_path`.
Both fallback branches return the sample dataframe. -/
def load_data (fs : String → Option Table) (csv_path : Option String) : Table :=
  match csv_path with
  | some p =>
      match fs p with
      | some raw => loadCsv raw
      | none => sampleTable
  | none => sampleTable

/-- The default CSV filename probed by `__main__` when no argument is
given. -/
def defaultCsvName : String :=
  "Pre-Lease - Summary.csv"

/-- The argument handling of `__main__`: a first argument of
`--sample` forces the sample data (a `none` path); any other first
argument is the CSV path; with no argument the default filename is used
when it exists, else a `none` path. -/
def resolveCsvArg (fs : String → Option Table) (argv : List String) : Option String :=
  match argv with
  | a :: _ => if a = "--sample" then none else some a
  | [] => if (fs defaultCsvName).isSome then some defaultCsvName else none

/-- The full in-memory pipeline of `generate_report` after loading:
metrics from the loaded table, charts (mutating the table), then the
display table from the mutated table. -/
def runPipeline (t : Table) : Metrics × ChartData × List TableRow :=
  let metrics := calculate_metrics t
  let pc := prepare_chart_data t
  let table_data := prepare_table_data pc.2
  (metrics, pc.1, table_data)

/-- Embedding of `generate_report` up to (and excluding) template
rendering: load, then run the pipeline. -/
def generate_report (fs : String → Option Table) (csv_path : Option String) :
    Metrics × ChartData × List TableRow :=
  runPipeline (load_data fs csv_path)

/-- Concrete one-row table whose `occupancy_pct` column holds a
percentage-scale value with a second decimal digit (82.46). -/
def tblPass : Table :=
  ⟨[⟨"A", 100, 82, 18, 45, 37⟩], some [4123/50]⟩

/-- Concrete one-row table whose `occupancy_pct` value 0.005 is so small
that one rescaling by 100 still leaves the column maximum at most 1. -/
def tblFrac : Table :=
  ⟨[⟨"B", 200, 1, 199, 1, 0⟩], some [1/200]⟩

/-- Concrete table where `total_preleased / total_units * 100` is
exactly 6.25, a representable tie at the second decimal. -/
def tblTie : Table :=
  ⟨[⟨"A", 16, 1, 0, 0, 0⟩], none⟩

/-- Concrete table where `total_preleased / total_units * 100` is
exactly 18.75, a tie that rounds up to the even tenth. -/
def tblTieUp : Table :=
  ⟨[⟨"A", 16, 3, 0, 0, 0⟩], none⟩

/-- Concrete two-row table with equal `occupancy_pct` values, used to
observe tie-breaking of the occupancy sort. -/
def tblTwin : Table :=
  ⟨[⟨"X", 10, 6, 4, 3, 3⟩, ⟨"Y", 20, 12, 8, 6, 6⟩], some [60, 60]⟩

/-- Concrete raw table containing a zero-unit row, as parsed from a CSV
before the loader's filter. -/
def tblRawDrop : Table :=
  ⟨[⟨"OK", 10, 5, 5, 3, 2⟩, ⟨"Not Selected", 0, 0, 0, 0, 0⟩], none⟩

/-- Concrete one-row well-formed table used to instantiate
fraction-detection statements. -/
def tblSmall : Table :=
  ⟨[⟨"W", 10, 5, 5, 3, 2⟩], some [3/2]⟩

/-- A path of a file that does not exist in the modelled filesystem. -/
def missingPath : String :=
  "missing.csv"

/-- The empty modelled filesystem: no file exists at any path. -/
def emptyFs : String → Option Table :=
  fun _ => none

/-- Inserting an element is a permutation of consing it. -/
theorem insertAsc_perm (x : Row × ℚ) (l : List (Row × ℚ)) :
    (insertAsc x l).Perm (x :: l) := by
  induction l with
  | nil => exact List.Perm.refl _
  | cons y ys ih =>
      unfold insertAsc
      by_cases h : x.2 ≤ y.2
      · rw [if_pos h]
      · rw [if_neg h]
        exact (ih.cons y).trans (List.Perm.swap x y ys)

/-- The stable sort permutes its input. -/
theorem sortPairs_perm (l : List (Row × ℚ)) : (sortPairs l).Perm l := by
  induction l with
  | nil => simp [sortPairs]
  | cons x xs ih =>
      unfold sortPairs
      exact (insertAsc_perm x (sortPairs xs)).trans (ih.cons x)

/-- Membership in an insertion. -/
theorem mem_insertAsc {z x : Row × ℚ} {l : List (Row × ℚ)}
    (h : z ∈ insertAsc x l) : z = x ∨ z ∈ l :=
  by simpa using (insertAsc_perm x l).mem_iff.mp h

/-- Insertion preserves sortedness by the occupancy key. -/
theorem insertAsc_sorted (x : Row × ℚ) (l : List (Row × ℚ))
    (hl : l.Pairwise (fun a b => a.2 ≤ b.2)) :
    (insertAsc x l).Pairwise (fun a b => a.2 ≤ b.2) := by
  induction l with
  | nil => simp [insertAsc]
  | cons y ys ih =>
      rcases List.pairwise_cons.mp hl with ⟨hy, hys⟩
      unfold insertAsc
      by_cases h : x.2 ≤ y.2
      · rw [if_pos h]
        refine List.pairwise_cons.mpr ⟨?_, hl⟩
        intro z hz
        rcases List.mem_cons.mp hz with rfl | hz
        · exact h
        · exact le_trans h (hy z hz)
      · rw [if_neg h]
        refine List.pairwise_cons.mpr ⟨?_, ih hys⟩
        intro z hz
        rcases mem_insertAsc hz with rfl | hz
        · exact le_of_not_le h
        · exact hy z hz

/-- The stable sort sorts ascending by the occupancy key. -/
theorem sortPairs_sorted (l : List (Row × ℚ)) :
    (sortPairs l).Pairwise (fun a b => a.2 ≤ b.2) := by
  induction l with
  | nil => simp [sortPairs]
  | cons x xs ih => exact insertAsc_sorted x (sortPairs xs) ih

/-- Stability of the insertion step: restricted to any fixed occupancy
key, inserting behaves like consing. -/
theorem insertAsc_filter_key (x : Row × ℚ) (l : List (Row × ℚ)) (c : ℚ) :
    (insertAsc x l).filter (fun p => decide (p.2 = c)) =
      if x.2 = c then x :: l.filter (fun p => decide (p.2 = c))
      else l.filter (fun p => decide (p.2 = c)) := by
  induction l with
  | nil =>
      unfold insertAsc
      by_cases hx : x.2 = c <;> simp [List.filter_cons, hx]
  | cons y ys ih =>
      unfold insertAsc
      by_cases h : x.2 ≤ y.2
      · rw [if_pos h]
        simp only [List.filter_cons]
        by_cases hx : x.2 = c <;> by_cases hy : y.2 = c <;> simp [hx, hy]
      · rw [if_neg h]
        simp only [List.filter_cons]
        rw [ih]
        have hyx : y.2 < x.2 := lt_of_not_le h
        by_cases hx : x.2 = c
        · have hy : ¬ (y.2 = c) := by
            intro hy
            rw [hx] at hyx
            rw [hy] at hyx
            exact lt_irrefl c hyx
          simp [hx, hy]
        · by_cases hy : y.2 = c <;> simp [hx, hy]

/-- Stability of the sort: for every occupancy key `c`, the elements
carrying key `c` appear in the sorted list exactly in their original
relative order. -/
theorem sortPairs_filter_key (l : List (Row × ℚ)) (c : ℚ) :
    (sortPairs l).filter (fun p => decide (p.2 = c)) =
      l.filter (fun p => decide (p.2 = c)) := by
  induction l with
  | nil => simp [sortPairs]
  | cons x xs ih =>
      unfold sortPairs
      rw [insertAsc_filter_key]
      simp only [List.filter_cons]
      by_cases hx : x.2 = c <;> simp [hx, ih]

/-- From well-formedness, a present occupancy column matches the row
count. -/
theorem wfB_some {t : Table} {vs : List ℚ} (hwf : t.wfB = true)
    (h : t.occupancy_pct = some vs) : vs.length = t.rows.length := by
  unfold Table.wfB at hwf
  rw [h] at hwf
  simpa using hwf

/-- The resolved occupancy column always has one entry per row (for
well-formed tables). -/
theorem resolveOcc_length (t : Table) (hwf : t.wfB = true) :
    (resolveOcc t).length = t.rows.length := by
  unfold resolveOcc
  cases h : t.occupancy_pct with
  | none => simp
  | some vs =>
      have hlen := wfB_some hwf h
      by_cases hmax : seriesMaxLe1 vs <;> simp [hmax, hlen]

/-- Mapping a function of the first component over a full zip. -/
theorem map_zip_fst {l₁ : List Row} {l₂ : List ℚ} (h : l₂.length = l₁.length)
    (f : Row → α) : (l₁.zip l₂).map (fun p => f p.1) = l₁.map f := by
  have h1 : (l₁.zip l₂).map Prod.fst = l₁ :=
    List.map_fst_zip l₁ l₂ (le_of_eq h.symm)
  calc (l₁.zip l₂).map (fun p => f p.1)
      = ((l₁.zip l₂).map Prod.fst).map f := by rw [List.map_map]; rfl
    _ = l₁.map f := by rw [h1]

/-- Mapping the second component over a full zip. -/
theorem map_zip_snd {l₁ : List Row} {l₂ : List ℚ} (h : l₂.length = l₁.length) :
    (l₁.zip l₂).map Prod.snd = l₂ :=
  List.map_snd_zip l₁ l₂ (le_of_eq h)

/-- The display table's occupancy column is exactly the resolved
occupancy column. -/
theorem prepare_table_data_occupancy (t : Table) (hwf : t.wfB = true) :
    (prepare_table_data t).map TableRow.occupancy = resolveOcc t := by
  unfold prepare_table_data
  rw [List.map_map]
  exact map_zip_snd (resolveOcc_length t hwf)

/-- The display table lists the unit types in original row order. -/
theorem prepare_table_data_unit_type (t : Table) (hwf : t.wfB = true) :
    (prepare_table_data t).map TableRow.unit_type = t.rows.map Row.unit_type := by
  unfold prepare_table_data
  rw [List.map_map]
  exact map_zip_fst (resolveOcc_length t hwf) Row.unit_type

/-- Every display record carries the class computed from its own
occupancy value. -/
theorem prepare_table_data_class (t : Table) {tr : TableRow}
    (htr : tr ∈ prepare_table_data t) : tr.occupancy_class = occClass tr.occupancy := by
  unfold prepare_table_data at htr
  rcases List.mem_map.mp htr with ⟨p, _, rfl⟩
  rfl

/-- The chart preparer returns the table with the resolved occupancy
column written back, and original rows. -/
theorem prepare_chart_data_snd (t : Table) :
    (prepare_chart_data t).2 = ⟨t.rows, some (resolveOcc t)⟩ := rfl

/-- The mutated table is well-formed whenever the input is. -/
theorem prepare_chart_data_snd_wfB (t : Table) (hwf : t.wfB = true) :
    (prepare_chart_data t).2.wfB = true := by
  rw [prepare_chart_data_snd]
  unfold Table.wfB
  simpa using resolveOcc_length t hwf

/-- The occupancy chart's labels are a permutation of the unit types. -/
theorem occupancy_chart_labels_perm (t : Table) (hwf : t.wfB = true) :
    ((prepare_chart_data t).1.occupancy_chart.labels).Perm
      (t.rows.map Row.unit_type) := by
  have h1 : ((prepare_chart_data t).1.occupancy_chart.labels) =
      (sortPairs (t.rows.zip (resolveOcc t))).map (fun p => p.1.unit_type) := rfl
  rw [h1]
  have h2 := (sortPairs_perm (t.rows.zip (resolveOcc t))).map
    (fun p : Row × ℚ => p.1.unit_type)
  have h3 : (t.rows.zip (resolveOcc t)).map (fun p : Row × ℚ => p.1.unit_type) =
      t.rows.map Row.unit_type :=
    map_zip_fst (resolveOcc_length t hwf) Row.unit_type
  exact h3 ▸ h2

/-- The loader's kept rows are exactly the positive-unit rows, for
well-formed raw tables. -/
theorem zip_filter_fst (rows : List Row) (vs : List ℚ)
    (hlen : vs.length = rows.length) :
    ((rows.zip vs).filter (fun p => decide (0 < p.1.total_units))).map Prod.fst =
      rows.filter (fun r => decide (0 < r.total_units)) := by
  induction rows generalizing vs with
  | nil => simp
  | cons r rs ih =>
      cases vs with
      | nil => simp at hlen
      | cons v vt =>
          have hlen2 : vt.length = rs.length := by simpa using hlen
          by_cases hr : 0 < r.total_units <;>
            simp [List.filter_cons, hr, ih vt hlen2]

theorem loadCsv_rows (raw : Table) (hwf : raw.wfB = true) :
    (loadCsv raw).rows = raw.rows.filter (fun r => decide (0 < r.total_units)) := by
  obtain ⟨rows, occ⟩ := raw
  cases occ with
  | none => rfl
  | some vs =>
      have hlen : vs.length = rows.length := wfB_some hwf rfl
      exact zip_filter_fst rows vs hlen

/-- The loader's output is always well-formed. -/
theorem loadCsv_wfB (raw : Table) : (loadCsv raw).wfB = true := by
  unfold loadCsv Table.wfB
  cases raw.occupancy_pct with
  | none => rfl
  | some vs => simp

/-- C2: for every table with at least one row (and the data model's
non-negative unit counts), `calculate_metrics` returns
`overall_occupancy = round(sum(preleased) / sum(total_units) * 100, 1)`
whenever the unit sum is non-zero, and returns `0` when the unit sum is
zero — the division is guarded by `if total_units > 0` and never
evaluated in that case. -/
theorem C2_overall_occupancy (t : Table)
    (hpos : ∀ r ∈ t.rows, 0 ≤ r.total_units) (hne : t.rows ≠ []) :
    ((t.rows.map Row.total_units).sum ≠ 0 →
      (calculate_metrics t).overall_occupancy =
        rnd1 (((t.rows.map Row.preleased).sum : ℚ) /
          ((t.rows.map Row.total_units).sum : ℚ) * 100)) ∧
    ((t.rows.map Row.total_units).sum = 0 →
      (calculate_metrics t).overall_occupancy = 0) := by
  constructor
  · intro h
    have hge : 0 ≤ (t.rows.map Row.total_units).sum := by
      apply List.sum_nonneg
      intro x hx
      rcases List.mem_map.mp hx with ⟨r, hr, rfl⟩
      exact hpos r hr
    have hgt : 0 < (t.rows.map Row.total_units).sum := lt_of_le_of_ne hge (Ne.symm h)
    simp [calculate_metrics, hgt]
  · intro h
    simp [calculate_metrics, h]

/-- Witness for C2: instantiation at the built-in sample table, whose
unit sum 600 is non-zero. -/
theorem C2_witness :
    (calculate_metrics sampleTable).overall_occupancy =
      rnd1 (((sampleTable.rows.map Row.preleased).sum : ℚ) /
        ((sampleTable.rows.map Row.total_units).sum : ℚ) * 100) :=
  (C2_overall_occupancy sampleTable (by decide) (by decide)).1 (by decide)

/-- C3: the metrics of the built-in six-row sample table are exactly
`total_units = 600`, `total_preleased = 490` (the literal sum
72+120+82+112+60+44), `total_available = 110` (8+30+18+28+20+6) and
`overall_occupancy = round(490/600*100, 1) = 81.7`. -/
theorem C3_sample_round_trip :
    calculate_metrics sampleTable = ⟨600, 490, 110, 817/10⟩ ∧
    (490 : Int) = 72 + 120 + 82 + 112 + 60 + 44 ∧
    (110 : Int) = 8 + 30 + 18 + 28 + 20 + 6 ∧
    rnd1 ((490 : ℚ)/600 * 100) = 817/10 := by
  refine ⟨?_, by decide, by decide, by norm_num [rnd1, roundHalfEven]⟩
  norm_num [calculate_metrics, sampleTable, rnd1, roundHalfEven]

/-- C4: the table formatter's bucket function answers `low` exactly
below 70, `mid` exactly on [70, 90), `high` exactly from 90 up; every
display record carries the bucket of its own resolved occupancy; and
69.9, 70.0, 89.9, 90.0 fall in low, mid, mid, high respectively. -/
theorem C4_occupancy_class_boundaries :
    (∀ occ : ℚ,
      (occClass occ = "occupancy-low" ↔ occ < 70) ∧
      (occClass occ = "occupancy-mid" ↔ 70 ≤ occ ∧ occ < 90) ∧
      (occClass occ = "occupancy-high" ↔ 90 ≤ occ)) ∧
    (∀ t : Table, ∀ tr ∈ prepare_table_data t,
      tr.occupancy_class = occClass tr.occupancy) ∧
    occClass (699/10) = "occupancy-low" ∧
    occClass 70 = "occupancy-mid" ∧
    occClass (899/10) = "occupancy-mid" ∧
    occClass 90 = "occupancy-high" := by
  refine ⟨?_, fun t tr htr => prepare_table_data_class t htr,
    by norm_num [occClass], by norm_num [occClass],
    by norm_num [occClass], by norm_num [occClass]⟩
  intro occ
  unfold occClass
  by_cases h1 : occ < 70
  · rw [if_pos h1]
    refine ⟨by simp [h1], ?_, ?_⟩
    · constructor
      · intro hs; simp at hs
      · rintro ⟨h70, _⟩; linarith
    · constructor
      · intro hs; simp at hs
      · intro h90; linarith
  · rw [if_neg h1]
    push_neg at h1
    by_cases h2 : occ < 90
    · rw [if_pos h2]
      refine ⟨?_, by simp [h1, h2], ?_⟩
      · constructor
        · intro hs; simp at hs
        · intro h70; linarith
      · constructor
        · intro hs; simp at hs
        · intro h90; linarith
    · rw [if_neg h2]
      push_neg at h2
      refine ⟨?_, ?_, by simp [h2]⟩
      · constructor
        · intro hs; simp at hs
        · intro h70; linarith
      · constructor
        · intro hs; simp at hs
        · rintro ⟨_, h90⟩; linarith

/-- Witness for C4: the four boundary evaluations, read off the
theorem. -/
theorem C4_witness :
    occClass (699/10) = "occupancy-low" ∧ occClass 70 = "occupancy-mid" ∧
    occClass (899/10) = "occupancy-mid" ∧ occClass 90 = "occupancy-high" := by
  have h := C4_occupancy_class_boundaries
  exact ⟨h.2.2.1, h.2.2.2.1, h.2.2.2.2.1, h.2.2.2.2.2⟩

/-- C9: the donut chart ignores the `occupancy_pct` column entirely
(same rows, any two columns, same payload), its three values sum to
`sum(new_leases) + sum(renewals) + sum(available)` over all rows, and
its labels are the fixed list. -/
theorem C9_donut_chart (rows : List Row) (o1 o2 : Option (List ℚ)) :
    (prepare_chart_data ⟨rows, o1⟩).1.donut_chart =
      (prepare_chart_data ⟨rows, o2⟩).1.donut_chart ∧
    ((prepare_chart_data ⟨rows, o1⟩).1.donut_chart.values).sum =
      (rows.map Row.new_leases).sum + (rows.map Row.renewals).sum +
        (rows.map Row.available).sum ∧
    (prepare_chart_data ⟨rows, o1⟩).1.donut_chart.labels =
      ["New Leases", "Renewals", "Available"] := by
  refine ⟨rfl, ?_, rfl⟩
  show ([(rows.map Row.new_leases).sum, (rows.map Row.renewals).sum,
    (rows.map Row.available).sum] : List Int).sum = _
  simp [List.sum_cons, List.sum_nil]
  omega

/-- Witness for C9: instantiation at the sample rows with the column
absent versus present. -/
theorem C9_witness :
    (prepare_chart_data ⟨sampleTable.rows, none⟩).1.donut_chart =
      (prepare_chart_data ⟨sampleTable.rows, some [1/2]⟩).1.donut_chart ∧
    ((prepare_chart_data ⟨sampleTable.rows, none⟩).1.donut_chart.values).sum =
      (sampleTable.rows.map Row.new_leases).sum +
        (sampleTable.rows.map Row.renewals).sum +
        (sampleTable.rows.map Row.available).sum ∧
    (prepare_chart_data ⟨sampleTable.rows, none⟩).1.donut_chart.labels =
      ["New Leases", "Renewals", "Available"] :=
  C9_donut_chart sampleTable.rows none (some [1/2])

/-- C10: `prepare_chart_data` hands back its input table with the
resolved `occupancy_pct` column written in place — added when absent,
rescaled when the column maximum was at most 1, untouched otherwise —
and `generate_report`'s display table is computed from that mutated
table, not from the loader's original; on `tblFrac` the two visibly
differ. -/
theorem C10_chart_preparer_mutation (t : Table) :
    (prepare_chart_data t).2 = ⟨t.rows, some (resolveOcc t)⟩ ∧
    (t.occupancy_pct = none →
      (prepare_chart_data t).2.occupancy_pct =
        some (t.rows.map (fun r => rnd1 ((r.preleased : ℚ) / (r.total_units : ℚ) * 100)))) ∧
    (∀ vs, t.occupancy_pct = some vs → seriesMaxLe1 vs = true →
      (prepare_chart_data t).2.occupancy_pct = some (vs.map (fun v => rnd1 (v * 100)))) ∧
    (∀ vs, t.occupancy_pct = some vs → seriesMaxLe1 vs = false →
      (prepare_chart_data t).2.occupancy_pct = some vs) ∧
    (runPipeline t).2.2 = prepare_table_data (prepare_chart_data t).2 ∧
    prepare_table_data tblFrac ≠ prepare_table_data (prepare_chart_data tblFrac).2 := by
  have hocc : (prepare_chart_data t).2.occupancy_pct = some (resolveOcc t) := rfl
  refine ⟨rfl, ?_, ?_, ?_, rfl, ?_⟩
  · intro h
    rw [hocc]
    simp [resolveOcc, h]
  · intro vs h hmax
    rw [hocc]
    simp [resolveOcc, h, hmax]
  · intro vs h hmax
    rw [hocc]
    simp [resolveOcc, h, hmax]
  · intro hEq
    have h1 : (prepare_table_data tblFrac).map TableRow.occupancy = [1/2] := by
      norm_num [prepare_table_data, tblFrac, resolveOcc, seriesMaxLe1, rnd1, roundHalfEven]
    have h2 : (prepare_table_data (prepare_chart_data tblFrac).2).map TableRow.occupancy
        = [50] := by
      rw [prepare_chart_data_snd]
      norm_num [prepare_table_data, tblFrac, resolveOcc, seriesMaxLe1, rnd1, roundHalfEven]
    rw [hEq, h2] at h1
    norm_num at h1

/-- Witness for C10: the returned-table equation and the pipeline
threading equation, instantiated at `tblFrac`. -/
theorem C10_witness :
    (prepare_chart_data tblFrac).2 = ⟨tblFrac.rows, some (resolveOcc tblFrac)⟩ ∧
    (runPipeline tblFrac).2.2 = prepare_table_data (prepare_chart_data tblFrac).2 := by
  have h := C10_chart_preparer_mutation tblFrac
  exact ⟨h.1, h.2.2.2.2.1⟩

/-- C5: the occupancy chart's labels are a permutation of the input
unit types; its values are ascending; labels and values are read off
the same stably-sorted (row, occupancy) sequence in the same order; and
the sort is stable: within any fixed occupancy key the original row
order is preserved. -/
theorem C5_occupancy_chart_order (t : Table) (hwf : t.wfB = true) :
    ((runPipeline t).2.1.occupancy_chart.labels).Perm (t.rows.map Row.unit_type) ∧
    ((runPipeline t).2.1.occupancy_chart.values).Pairwise (fun a b => a ≤ b) ∧
    (runPipeline t).2.1.occupancy_chart.labels =
      (sortPairs (t.rows.zip (resolveOcc t))).map (fun p => p.1.unit_type) ∧
    (runPipeline t).2.1.occupancy_chart.values =
      (sortPairs (t.rows.zip (resolveOcc t))).map Prod.snd ∧
    (sortPairs (t.rows.zip (resolveOcc t))).Perm (t.rows.zip (resolveOcc t)) ∧
    (∀ c : ℚ, (sortPairs (t.rows.zip (resolveOcc t))).filter (fun p => decide (p.2 = c)) =
      (t.rows.zip (resolveOcc t)).filter (fun p => decide (p.2 = c))) := by
  refine ⟨occupancy_chart_labels_perm t hwf, ?_, rfl, rfl, sortPairs_perm _,
    fun c => sortPairs_filter_key _ c⟩
  have hvals : (runPipeline t).2.1.occupancy_chart.values =
      (sortPairs (t.rows.zip (resolveOcc t))).map Prod.snd := rfl
  rw [hvals, List.pairwise_map]
  exact sortPairs_sorted _

/-- Witness for C5 at the two-row table with tied occupancy values:
labels permute the unit types, labels follow the stable sort, and at
the tied key 60 the original order is preserved. -/
theorem C5_witness :
    ((runPipeline tblTwin).2.1.occupancy_chart.labels).Perm
      (tblTwin.rows.map Row.unit_type) ∧
    (runPipeline tblTwin).2.1.occupancy_chart.labels =
      (sortPairs (tblTwin.rows.zip (resolveOcc tblTwin))).map (fun p => p.1.unit_type) ∧
    (sortPairs (tblTwin.rows.zip (resolveOcc tblTwin))).filter
        (fun p => decide (p.2 = 60)) =
      (tblTwin.rows.zip (resolveOcc tblTwin)).filter (fun p => decide (p.2 = 60)) := by
  have h := C5_occupancy_chart_order tblTwin (by decide)
  exact ⟨h.1, h.2.2.1, h.2.2.2.2.2 60⟩

/-- C7: the loader keeps exactly the rows with positive `total_units`;
every kept row has positive units and no non-positive row survives; and
every derived output — the three metric sums, all four chart payloads
and the display table — is built from the kept rows alone. -/
theorem C7_nonpositive_rows_dropped (raw : Table) (hwf : raw.wfB = true) :
    (loadCsv raw).rows = raw.rows.filter (fun r => decide (0 < r.total_units)) ∧
    (∀ r ∈ (loadCsv raw).rows, 0 < r.total_units) ∧
    (∀ r ∈ raw.rows, r.total_units ≤ 0 → r ∉ (loadCsv raw).rows) ∧
    (runPipeline (loadCsv raw)).1.total_units =
      ((loadCsv raw).rows.map Row.total_units).sum ∧
    (runPipeline (loadCsv raw)).1.total_preleased =
      ((loadCsv raw).rows.map Row.preleased).sum ∧
    (runPipeline (loadCsv raw)).1.total_available =
      ((loadCsv raw).rows.map Row.available).sum ∧
    (runPipeline (loadCsv raw)).2.1.donut_chart.values =
      [((loadCsv raw).rows.map Row.new_leases).sum,
       ((loadCsv raw).rows.map Row.renewals).sum,
       ((loadCsv raw).rows.map Row.available).sum] ∧
    (runPipeline (loadCsv raw)).2.1.stacked_chart.labels =
      (loadCsv raw).rows.map Row.unit_type ∧
    (runPipeline (loadCsv raw)).2.1.availability_chart.labels =
      (loadCsv raw).rows.map Row.unit_type ∧
    ((runPipeline (loadCsv raw)).2.1.occupancy_chart.labels).Perm
      ((loadCsv raw).rows.map Row.unit_type) ∧
    (runPipeline (loadCsv raw)).2.2.map TableRow.unit_type =
      (loadCsv raw).rows.map Row.unit_type := by
  have hrows := loadCsv_rows raw hwf
  have hwf2 := loadCsv_wfB raw
  refine ⟨hrows, ?_, ?_, rfl, rfl, rfl, rfl, rfl, rfl, ?_, ?_⟩
  · intro r hr
    rw [hrows] at hr
    have := List.of_mem_filter hr
    simpa using this
  · intro r _ hle hmem
    rw [hrows] at hmem
    have := List.of_mem_filter hmem
    simp only [decide_eq_true_eq] at this
    exact absurd this (not_lt.mpr hle)
  · exact occupancy_chart_labels_perm (loadCsv raw) hwf2
  · have h1 : (runPipeline (loadCsv raw)).2.2 =
        prepare_table_data (prepare_chart_data (loadCsv raw)).2 := rfl
    rw [h1, prepare_table_data_unit_type _ (prepare_chart_data_snd_wfB _ hwf2),
      prepare_chart_data_snd]

/-- Witness for C7 at a raw table containing a zero-unit row. -/
theorem C7_witness :
    (loadCsv tblRawDrop).rows =
      tblRawDrop.rows.filter (fun r => decide (0 < r.total_units)) ∧
    (runPipeline (loadCsv tblRawDrop)).2.2.map TableRow.unit_type =
      (loadCsv tblRawDrop).rows.map Row.unit_type := by
  have h := C7_nonpositive_rows_dropped tblRawDrop (by decide)
  exact ⟨h.1, h.2.2.2.2.2.2.2.2.2.2⟩

/-- C8: a CSV path that does not exist makes the loader return the
sample table, exactly as an explicit `--sample` invocation does (both
resolve to a `none` path); with no argument and no default file present
the resolved path is likewise `none`; consequently the whole report
pipeline — metrics, all four chart payloads and the display table —
produces identical output. -/
theorem C8_missing_file_fallback (fs : String → Option Table) (p : String)
    (hp : fs p = none) :
    load_data fs (some p) = sampleTable ∧
    load_data fs none = sampleTable ∧
    (fs defaultCsvName = none → resolveCsvArg fs [] = none) ∧
    resolveCsvArg fs ["--sample"] = none ∧
    generate_report fs (some p) = generate_report fs none ∧
    runPipeline (load_data fs (some p)) = runPipeline sampleTable := by
  have h1 : load_data fs (some p) = sampleTable := by
    simp [load_data, hp]
  refine ⟨h1, rfl, ?_, ?_, ?_, ?_⟩
  · intro hd
    simp [resolveCsvArg, hd]
  · simp [resolveCsvArg]
  · unfold generate_report
    rw [h1]
    rfl
  · rw [h1]

/-- Witness for C8 over the empty filesystem. -/
theorem C8_witness :
    load_data emptyFs (some missingPath) = sampleTable ∧
    generate_report emptyFs (some missingPath) = generate_report emptyFs none := by
  have h := C8_missing_file_fallback emptyFs missingPath rfl
  exact ⟨h.1, h.2.2.2.2.1⟩

/-- Counterexample to C1 as stated: (a) at `tblPass` the input value
82.46 exceeds 1, and the chart passes it through with NO rounding —
82.46, although a pass-through "after rounding" would give 82.5; (b) at
`tblFrac` all inputs are at most 1 (0.005), yet the display row's
occupancy is 50, not round(0.005*100, 1) = 0.5: the formatter re-runs
fraction detection on the chart preparer's already-rescaled column and
rescales a second time. -/
theorem C1_counterexample :
    ((runPipeline tblPass).2.1.occupancy_chart.values = [4123/50] ∧
      rnd1 ((4123 : ℚ)/50) = 825/10 ∧ (4123 : ℚ)/50 ≠ 825/10) ∧
    ((runPipeline tblFrac).2.2.map TableRow.occupancy = [50] ∧
      rnd1 ((1/200 : ℚ) * 100) = 1/2 ∧ (50 : ℚ) ≠ 1/2) := by
  refine ⟨⟨?_, by norm_num [rnd1, roundHalfEven], by norm_num⟩,
    ⟨?_, by norm_num [rnd1, roundHalfEven], by norm_num⟩⟩
  · show ((sortPairs (tblPass.rows.zip (resolveOcc tblPass))).map Prod.snd) = _
    norm_num [tblPass, resolveOcc, seriesMaxLe1, sortPairs, insertAsc]
  · show (prepare_table_data (prepare_chart_data tblFrac).2).map TableRow.occupancy = _
    rw [prepare_chart_data_snd]
    norm_num [prepare_table_data, tblFrac, resolveOcc, seriesMaxLe1, rnd1, roundHalfEven]

/-- C1 (amended): fraction detection is per component, each on its own
column snapshot. With the column present: if the input maximum is at
most 1, the chart values are a permutation (namely the sorted
arrangement) of the inputs rescaled by 100 and rounded to one decimal,
and the display occupancies are the result of the formatter re-running
the detection on that rescaled column — so they equal the rescaled
inputs exactly when the rescaled maximum exceeds 1, and are rescaled a
second time otherwise; if any input exceeds 1, both components pass the
inputs through entirely unchanged, with no rounding applied. -/
theorem C1_fraction_detection (rows : List Row) (vs : List ℚ)
    (hlen : vs.length = rows.length) :
    (seriesMaxLe1 vs = true →
      ((runPipeline ⟨rows, some vs⟩).2.1.occupancy_chart.values).Perm
        (vs.map (fun v => rnd1 (v * 100))) ∧
      (runPipeline ⟨rows, some vs⟩).2.2.map TableRow.occupancy =
        resolveOcc ⟨rows, some (vs.map (fun v => rnd1 (v * 100)))⟩ ∧
      (seriesMaxLe1 (vs.map (fun v => rnd1 (v * 100))) = false →
        (runPipeline ⟨rows, some vs⟩).2.2.map TableRow.occupancy =
          vs.map (fun v => rnd1 (v * 100)))) ∧
    (seriesMaxLe1 vs = false →
      ((runPipeline ⟨rows, some vs⟩).2.1.occupancy_chart.values).Perm vs ∧
      (runPipeline ⟨rows, some vs⟩).2.2.map TableRow.occupancy = vs) := by
  have hwf : Table.wfB ⟨rows, some vs⟩ = true := by
    simp [Table.wfB, hlen]
  have hlenOcc : (resolveOcc ⟨rows, some vs⟩).length = rows.length :=
    resolveOcc_length _ hwf
  have hperm : ((runPipeline ⟨rows, some vs⟩).2.1.occupancy_chart.values).Perm
      (resolveOcc ⟨rows, some vs⟩) := by
    have hvals : (runPipeline ⟨rows, some vs⟩).2.1.occupancy_chart.values =
        (sortPairs (rows.zip (resolveOcc ⟨rows, some vs⟩))).map Prod.snd := rfl
    rw [hvals]
    have h2 := (sortPairs_perm (rows.zip (resolveOcc ⟨rows, some vs⟩))).map
      (Prod.snd : Row × ℚ → ℚ)
    rwa [map_zip_snd hlenOcc] at h2
  have htbl : (runPipeline ⟨rows, some vs⟩).2.2.map TableRow.occupancy =
      resolveOcc ⟨rows, some (resolveOcc ⟨rows, some vs⟩)⟩ := by
    have h1 : (runPipeline ⟨rows, some vs⟩).2.2 =
        prepare_table_data ⟨rows, some (resolveOcc ⟨rows, some vs⟩)⟩ := rfl
    rw [h1]
    apply prepare_table_data_occupancy
    simp [Table.wfB, hlenOcc]
  constructor
  · intro hmax
    have hres : resolveOcc ⟨rows, some vs⟩ = vs.map (fun v => rnd1 (v * 100)) := by
      simp [resolveOcc, hmax]
    rw [hres] at hperm
    refine ⟨hperm, ?_, ?_⟩
    · rw [htbl, hres]
    · intro hmax2
      rw [htbl, hres]
      simp [resolveOcc, hmax2]
  · intro hmax
    have hres : resolveOcc ⟨rows, some vs⟩ = vs := by
      simp [resolveOcc, hmax]
    rw [hres] at hperm
    refine ⟨hperm, ?_⟩
    rw [htbl, hres]
    exact hres

/-- Witness for C1 at a one-row table whose occupancy value 1.5
exceeds 1: both outputs pass the value through unchanged. -/
theorem C1_witness :
    ((runPipeline ⟨tblSmall.rows, some [3/2]⟩).2.1.occupancy_chart.values).Perm
      [3/2] ∧
    (runPipeline ⟨tblSmall.rows, some [3/2]⟩).2.2.map TableRow.occupancy = [3/2] :=
  (C1_fraction_detection tblSmall.rows [3/2] (by decide)).2
    (by norm_num [seriesMaxLe1])

/-- Counterexample to C6 as stated: at `tblTie` the pre-rounding
overall occupancy is exactly 6.25 — second decimal digit exactly 5 —
and the pipeline rounds DOWN to 6.2, not away from zero to 6.3. -/
theorem C6_counterexample :
    ((calculate_metrics tblTie).overall_occupancy = 62/10) ∧
    (((tblTie.rows.map Row.preleased).sum : ℚ) /
      ((tblTie.rows.map Row.total_units).sum : ℚ) * 100 = 625/100) ∧
    ((62 : ℚ)/10 ≠ 63/10) := by
  refine ⟨?_, by norm_num [tblTie], by norm_num⟩
  norm_num [calculate_metrics, tblTie, rnd1, roundHalfEven] <;>
    simp only [Int.fract] <;> norm_num

/-- C6 (amended): every rounding the pipeline performs is Python's
round-half-to-even at one decimal: a value whose second decimal digit
is exactly 5 rounds to the EVEN tenth — down at 6.25, up at 18.75 —
both in `calculate_metrics` and in the occupancy resolution shared by
the chart preparer and the table formatter. -/
theorem C6_rounding_is_half_even :
    (∀ k : Int, rnd1 ((k : ℚ)/10 + 1/20) =
      (if k % 2 = 0 then (k : ℚ) else (k : ℚ) + 1)/10) ∧
    (calculate_metrics tblTie).overall_occupancy = 62/10 ∧
    (calculate_metrics tblTieUp).overall_occupancy = 188/10 ∧
    resolveOcc ⟨tblTie.rows, some [1/16]⟩ = [62/10] ∧
    resolveOcc ⟨tblTieUp.rows, some [3/16]⟩ = [188/10] := by
  refine ⟨?_, ?_, ?_, ?_, ?_⟩
  · intro k
    have harg : ((k : ℚ)/10 + 1/20) * 10 = (k : ℚ) + 1/2 := by ring
    have hfl : ⌊(k : ℚ) + 1/2⌋ = k := by
      rw [add_comm, Int.floor_add_int]
      norm_num
    have hsub : (k : ℚ) + 1/2 - (k : Int) = 1/2 := by push_cast; ring
    simp only [rnd1, roundHalfEven]
    rw [harg, hfl, hsub]
    norm_num
  · norm_num [calculate_metrics, tblTie, rnd1, roundHalfEven] <;>
      simp only [Int.fract] <;> norm_num
  · norm_num [calculate_metrics, tblTieUp, rnd1, roundHalfEven] <;>
      simp only [Int.fract] <;> norm_num
  · norm_num [resolveOcc, tblTie, seriesMaxLe1, rnd1, roundHalfEven] <;>
      simp only [Int.fract] <;> norm_num
  · norm_num [resolveOcc, tblTieUp, seriesMaxLe1, rnd1, roundHalfEven] <;>
      simp only [Int.fract] <;> norm_num

/-- Witness for C6: the tie formula instantiated at the even tenth 62
(6.25 rounds to 6.2). -/
theorem C6_witness :
    rnd1 (((62 : Int) : ℚ)/10 + 1/20) =
      (if (62 : Int) % 2 = 0 then ((62 : Int) : ℚ) else ((62 : Int) : ℚ) + 1)/10 :=
  C6_rounding_is_half_even.1 62

